import Mathlib

/-!
Verification of the slack-qna message adapter.

The development shallowly embeds the two source files of the repository:
`markdownToMrkdwn` (a chain of JavaScript regex replacements) together with
the outbound dispatcher `postMessage` and the lifecycle coordinator
`processMessage`.  Strings are modelled as `String`/`List Char`; the
platform client is modelled as an oracle `Call → Except JsErr Unit`, and
each method returns the list of platform calls it issued together with its
own outcome.
-/

namespace SlackQna

/-- The JavaScript whitespace class used by the regex escape `\s` and by
`String.prototype.trim`: tab, line feed, vertical tab, form feed, carriage
return, space, NBSP, Ogham space, the U+2000–U+200A range, line and
paragraph separators, narrow NBSP, medium mathematical space, ideographic
space and the BOM. -/
def isJsWs (c : Char) : Bool :=
  c = ' ' || c = '\t' || c = '\n' || c = '\x0b' || c = '\x0c' || c = '\r' ||
  c.toNat = 0xA0 || c.toNat = 0x1680 ||
  (0x2000 ≤ c.toNat && c.toNat ≤ 0x200A) ||
  c.toNat = 0x2028 || c.toNat = 0x2029 || c.toNat = 0x202F ||
  c.toNat = 0x205F || c.toNat = 0x3000 || c.toNat = 0xFEFF

/-- Helper for the replacement of `\n\s*\n` by `\n\n`: given the characters
following the leading literal `\n`, return the remainder after the last
`\n` inside the maximal whitespace run (the greedy `\s*` backtracks to the
last line feed, which serves as the final literal `\n`), or `none` when the
run holds no line feed and the pattern cannot complete here. -/
def afterLastNl : List Char → Option (List Char)
  | [] => none
  | c :: rest =>
    if c = '\n' then some ((afterLastNl rest).getD rest)
    else if isJsWs c then afterLastNl rest
    else none

/-- Fuelled scan for `mrkdwn.replace(/\n\s*\n/gm, '\n\n')`: each whitespace
run delimited by line feeds collapses to one empty line.  The fuel is an
upper bound on the number of characters consumed; every step consumes at
least one, so `l.length` suffices. -/
def collapseGo : Nat → List Char → List Char
  | _, [] => []
  | 0, l => l
  | fuel + 1, c :: rest =>
    if c = '\n' then
      match afterLastNl rest with
      | some after => '\n' :: '\n' :: collapseGo fuel after
      | none => '\n' :: collapseGo fuel rest
    else c :: collapseGo fuel rest

/-- `mrkdwn.replace(/\n\s*\n/gm, '\n\n')`. -/
def collapseBlankRuns (l : List Char) : List Char :=
  collapseGo l.length l

/-- Fuelled scan for `mrkdwn.replace(/^\s*/gm, '')`: at every line start the
maximal whitespace run is deleted.  Because `\s` also matches `\n`, such a
run may swallow following line feeds, so blank lines disappear. -/
def stripGo : Nat → List Char → List Char
  | _, [] => []
  | 0, l => l
  | fuel + 1, c :: rest =>
    if c = '\n' then '\n' :: stripGo fuel (rest.dropWhile isJsWs)
    else c :: stripGo fuel rest

/-- `mrkdwn.replace(/^\s*/gm, '')` (the position-0 line start is handled by
the initial `dropWhile`). -/
def stripLineLeading (l : List Char) : List Char :=
  stripGo l.length (l.dropWhile isJsWs)

/-- Literal-prefix matcher: `dropLit p l` returns the remainder of `l` after
the literal `p`, or `none` when `p` is not a prefix of `l`. -/
def dropLit : List Char → List Char → Option (List Char)
  | [], l => some l
  | _ :: _, [] => none
  | p :: ps, c :: cs => if p = c then dropLit ps cs else none

/-- Fuelled scan shared by the line-anchored rules `^# (.*$)` (and the `##`,
`###` variants), and `^\* (.*$)`: at a line start matching the literal `p`,
the rest of the line is wrapped as `pre ++ line ++ post`.  `atStart` tracks
whether the current position is a line start of the original string. -/
def lineRuleGo (p pre post : List Char) : Nat → Bool → List Char → List Char
  | _, _, [] => []
  | 0, _, l => l
  | fuel + 1, atStart, c :: rest =>
    match (if atStart then dropLit p (c :: rest) else none) with
    | some rest2 =>
      let line := rest2.takeWhile (fun ch => ch ≠ '\n')
      let after := rest2.dropWhile (fun ch => ch ≠ '\n')
      pre ++ line ++ post ++ lineRuleGo p pre post fuel false after
    | none => c :: lineRuleGo p pre post fuel (c = '\n') rest

/-- One line-anchored replacement pass over the whole string. -/
def lineRule (p pre post : String) (l : List Char) : List Char :=
  lineRuleGo p.data pre.data post.data l.length true l

/-- Lazy closing scan for `\*\*(.*?)\*\*`: the nearest following `**` with no
intervening line feed closes the capture. -/
def findBoldClose : List Char → Option (List Char × List Char)
  | '*' :: '*' :: rest => some ([], rest)
  | '\n' :: _ => none
  | [] => none
  | c :: rest => (findBoldClose rest).map fun pr => (c :: pr.1, pr.2)

/-- Fuelled scan for `mrkdwn.replace(/\*\*(.*?)\*\*/g, '*$1*')`. -/
def boldGo : Nat → List Char → List Char
  | _, [] => []
  | 0, l => l
  | fuel + 1, '*' :: '*' :: rest =>
    (match findBoldClose rest with
     | some (cap, after) => '*' :: (cap ++ '*' :: boldGo fuel after)
     | none => '*' :: boldGo fuel ('*' :: rest))
  | fuel + 1, c :: rest => c :: boldGo fuel rest

/-- Lazy closing scan for `\_(.*?)\_`: the nearest following `_` with no
intervening line feed closes the capture. -/
def findItalicClose : List Char → Option (List Char × List Char)
  | '_' :: rest => some ([], rest)
  | '\n' :: _ => none
  | [] => none
  | c :: rest => (findItalicClose rest).map fun pr => (c :: pr.1, pr.2)

/-- Fuelled scan for `mrkdwn.replace(/\_(.*?)\_/g, '_$1_')` (the replacement
text coincides with the matched text, so the pass rewrites each match to
itself). -/
def italicGo : Nat → List Char → List Char
  | _, [] => []
  | 0, l => l
  | fuel + 1, '_' :: rest =>
    (match findItalicClose rest with
     | some (cap, after) => '_' :: (cap ++ '_' :: italicGo fuel after)
     | none => '_' :: italicGo fuel rest)
  | fuel + 1, c :: rest => c :: italicGo fuel rest

/-- Fuelled scan for the inline-code rule: one or more non-backtick
characters between backticks are rewritten to themselves. -/
def codeGo : Nat → List Char → List Char
  | _, [] => []
  | 0, l => l
  | fuel + 1, c :: rest =>
    if c = '`' then
      let cap := rest.takeWhile (fun ch => ch ≠ '`')
      match cap, rest.drop cap.length with
      | _ :: _, '`' :: rest2 => c :: (cap ++ c :: codeGo fuel rest2)
      | _, _ => c :: codeGo fuel rest
    else c :: codeGo fuel rest

/-- Lazy closing scan for a fenced code block: the nearest following triple
backtick (line feeds allowed in between) closes the fence. -/
def findFenceClose : List Char → Option (List Char × List Char)
  | '`' :: '`' :: '`' :: rest => some ([], rest)
  | [] => none
  | c :: rest => (findFenceClose rest).map fun pr => (c :: pr.1, pr.2)

/-- `String.prototype.trim` on a character list. -/
def trimChars (l : List Char) : List Char :=
  ((l.dropWhile isJsWs).reverse.dropWhile isJsWs).reverse

/-- Fuelled scan for the fenced-code rule: the fence content is trimmed and
the fence markers are kept. -/
def fenceGo : Nat → List Char → List Char
  | _, [] => []
  | 0, l => l
  | fuel + 1, '`' :: '`' :: '`' :: rest =>
    (match findFenceClose rest with
     | some (inner, after) =>
       '`' :: '`' :: '`' :: (trimChars inner ++ '`' :: '`' :: '`' :: fenceGo fuel after)
     | none => '`' :: fenceGo fuel ('`' :: '`' :: rest))
  | fuel + 1, c :: rest => c :: fenceGo fuel rest

/-- Lazy scan for the link payload `(.*?)\)`: the nearest following `)` with
no intervening line feed closes the capture. -/
def scanParen : List Char → Option (List Char × List Char)
  | ')' :: rest => some ([], rest)
  | '\n' :: _ => none
  | [] => none
  | c :: rest => (scanParen rest).map fun pr => (c :: pr.1, pr.2)

/-- Backtracking scan for `\[(.*?)\]\((.*?)\)` after the opening bracket:
finds the label, the literal `](`, and the payload closed by `)`.  When a
candidate `](` has no closing `)` on the same line the label lazily absorbs
the `]` and the scan continues. -/
def findLinkClose : List Char → Option (List Char × List Char × List Char)
  | ']' :: '(' :: rest =>
    (match scanParen rest with
     | some (cap2, after) => some ([], cap2, after)
     | none => (findLinkClose ('(' :: rest)).map fun tr => (']' :: tr.1, tr.2.1, tr.2.2))
  | '\n' :: _ => none
  | [] => none
  | c :: rest => (findLinkClose rest).map fun tr => (c :: tr.1, tr.2.1, tr.2.2)

/-- Fuelled scan for `mrkdwn.replace(/\[(.*?)\]\((.*?)\)/g, '<$2|$1>')`. -/
def linkGo : Nat → List Char → List Char
  | _, [] => []
  | 0, l => l
  | fuel + 1, '[' :: rest =>
    (match findLinkClose rest with
     | some (cap1, cap2, after) =>
       '<' :: (cap2 ++ '|' :: (cap1 ++ '>' :: linkGo fuel after))
     | none => '[' :: linkGo fuel rest)
  | fuel + 1, c :: rest => c :: linkGo fuel rest

/-- Matcher for the ordered-list line head `\d+\. `: consumes one or more
digits, a dot and a space. -/
def olHead (l : List Char) : Option (List Char) :=
  let ds := l.takeWhile Char.isDigit
  match ds, l.drop ds.length with
  | _ :: _, '.' :: ' ' :: rest => some rest
  | _, _ => none

/-- Fuelled scan for `mrkdwn.replace(/^\d+\. (.*$)/gm, '• $1')`. -/
def olGo : Nat → Bool → List Char → List Char
  | _, _, [] => []
  | 0, _, l => l
  | fuel + 1, atStart, c :: rest =>
    match (if atStart then olHead (c :: rest) else none) with
    | some rest2 =>
      let line := rest2.takeWhile (fun ch => ch ≠ '\n')
      let after := rest2.dropWhile (fun ch => ch ≠ '\n')
      '•' :: ' ' :: (line ++ olGo fuel false after)
    | none => c :: olGo fuel (c = '\n') rest

/-- The markdown-to-mrkdwn converter on character lists, applying the
replacement passes of the source in order: blank-run collapse, line-leading
whitespace strip, headers (levels 1–3, the level-3 pass repeated), bold,
italic, inline code, fenced code, links, unordered lists, ordered lists. -/
def markdownToMrkdwnChars (l : List Char) : List Char :=
  let s1 := collapseBlankRuns l
  let s2 := stripLineLeading s1
  let s3 := lineRule "# " "*" "*" s2
  let s4 := lineRule "## " "*" "*" s3
  let s5 := lineRule "### " "*" "*" s4
  let s6 := lineRule "### " "*" "*" s5
  let s7 := boldGo s6.length s6
  let s8 := italicGo s7.length s7
  let s9 := codeGo s8.length s8
  let s10 := fenceGo s9.length s9
  let s11 := linkGo s10.length s10
  let s12 := lineRule "* " "• " "" s11
  olGo s12.length true s12

/-- `SlackQna.markdownToMrkdwn`. -/
def markdownToMrkdwn (s : String) : String :=
  ⟨markdownToMrkdwnChars s.data⟩

/-- A handler result or outgoing payload: a JavaScript string or a Buffer
(modelled as its bytes). -/
inductive Payload where
  | str (s : String)
  | buf (b : List Nat)
deriving DecidableEq

/-- JavaScript truthiness of a payload: the empty string is falsy, every
other string and every Buffer object (even an empty one) is truthy. -/
def Payload.truthy : Payload → Bool
  | .str s => s != ""
  | .buf _ => true

/-- The `dataType` discriminator checked by `postMessage`. -/
inductive DataType where
  | text | mrkdwn | markdown | image | file
deriving DecidableEq

/-- A thrown JavaScript value as far as `processMessage` inspects it:
whether it is an `Error` instance, and its `message` property (empty when
absent). -/
structure JsErr where
  isError : Bool
  message : String
deriving DecidableEq

/-- Decidable equality of call outcomes, for evaluating the model on
concrete scenarios. -/
instance : DecidableEq (Except JsErr Unit) := fun a b =>
  match a, b with
  | .ok (), .ok () => isTrue rfl
  | .error e1, .error e2 =>
    if h : e1 = e2 then isTrue (by rw [h]) else isFalse (by intro hc; cases hc; exact h rfl)
  | .ok (), .error _ => isFalse (by intro hc; cases hc)
  | .error _, .ok () => isFalse (by intro hc; cases hc)

/-- `IncomingMessage` of `schema.ts`. -/
structure IncomingMessage where
  messageId : String
  channelId : String
  raw : String
  message : String
  threadId : Option String := none
deriving DecidableEq

/-- `OutgoingMessage` as consumed by `postMessage` (the `block` selector is
compared against the string `'section'` in the source, so it is kept as an
optional string). -/
structure OutgoingMessage where
  channelId : String
  data : Payload
  dataType : DataType
  threadId : Option String := none
  block : Option String := none
deriving DecidableEq

/-- A layout block as built by `postMessage`: a `section` block with a
mrkdwn text field, or a `context` block with one mrkdwn element. -/
inductive SlackBlock where
  | sectionBlock (text : String)
  | contextBlock (text : String)
deriving DecidableEq

/-- The mrkdwn text carried by a layout block. -/
def SlackBlock.text : SlackBlock → String
  | .sectionBlock t => t
  | .contextBlock t => t

/-- `message.block === 'section' ? sectionBlock : contextBlock`. -/
def mkBlock (block : Option String) (text : String) : SlackBlock :=
  if block = some "section" then .sectionBlock text else .contextBlock text

/-- One call to the platform client. -/
inductive Call where
  | chatPostMessage (channel : String) (threadTs : Option String)
      (text : String) (blocks : Option SlackBlock)
  | filesUploadV2 (channelId : String) (threadTs : Option String)
      (file : List Nat) (filename : String)
  | reactionsAdd (channel : String) (name : String) (timestamp : String)
  | reactionsRemove (channel : String) (name : String) (timestamp : String)
deriving DecidableEq

/-- The platform client as an oracle: each call either succeeds or rejects
with a thrown value. -/
def Platform : Type := Call → Except JsErr Unit

/-- The oracle on which every platform call succeeds. -/
def platOk : Platform := fun _ => Except.ok ()

/-- `SlackQna.postMessage`: dispatch on `dataType` and the runtime type of
`data`; each recognized pair issues exactly one platform call, any other
pair falls through the `if`/`else if` chain and the method returns without
doing anything.  The result is the list of issued calls together with the
outcome of the awaited call. -/
def postMessage (plat : Platform) (message : OutgoingMessage) :
    List Call × Except JsErr Unit :=
  match message.dataType, message.data with
  | .text, .str s =>
    let c := Call.chatPostMessage message.channelId message.threadId s none
    ([c], plat c)
  | .mrkdwn, .str s =>
    let c := Call.chatPostMessage message.channelId message.threadId s
      (some (mkBlock message.block s))
    ([c], plat c)
  | .markdown, .str s =>
    let c := Call.chatPostMessage message.channelId message.threadId s
      (some (mkBlock message.block (markdownToMrkdwn s)))
    ([c], plat c)
  | .image, .buf b =>
    let c := Call.filesUploadV2 message.channelId message.threadId b "data.png"
    ([c], plat c)
  | .file, .buf b =>
    let c := Call.filesUploadV2 message.channelId message.threadId b "data.txt"
    ([c], plat c)
  | _, _ => ([], Except.ok ())

/-- The `reactions` field of a `SlackQna` instance after construction; each
emoji is a string, and `processMessage` guards each step by the string's
truthiness. -/
structure Reactions where
  loading : String
  success : String
  failed : String
deriving DecidableEq

/-- The optional reactions override accepted by the constructor. -/
structure ReactionsArg where
  loading : Option String := none
  success : Option String := none
  failed : Option String := none

/-- JavaScript `a || b` on an optional string: an absent or empty (falsy)
left operand yields the default. -/
def jsOr (v : Option String) (d : String) : String :=
  match v with
  | some s => if s = "" then d else s
  | none => d

/-- The reactions assignment of the `SlackQna` constructor:
`args.reactions?.loading || 'thinking_face'` and so on. -/
def mkReactions (arg : Option ReactionsArg) : Reactions :=
  { loading := jsOr (arg.bind (·.loading)) "thinking_face"
    success := jsOr (arg.bind (·.success)) "white_check_mark"
    failed := jsOr (arg.bind (·.failed)) "x" }

/-- `CommandHook` of `schema.ts` (with the `block` selector read by
`processMessage`); the handler either resolves with a payload or rejects
with a thrown value. -/
structure CommandHook where
  isSync : Bool
  dataType : DataType
  block : Option String := none
  handler : IncomingMessage → Except JsErr Payload

/-- The reply `processMessage` builds from a truthy handler result. -/
def successReply (hk : CommandHook) (msg : IncomingMessage) (content : Payload) :
    OutgoingMessage :=
  { dataType := hk.dataType
    block := hk.block
    channelId := msg.channelId
    threadId := some msg.messageId
    data := content }

/-- The apology text of the catch block:
`` `Sorry, something went wrong. (${(err instanceof Error && err.message) ? err.message : ''})` ``. -/
def apologyText (err : JsErr) : String :=
  "Sorry, something went wrong. (" ++
    (if err.isError && err.message != "" then err.message else "") ++ ")"

/-- The outgoing apology message of the catch block. -/
def apologyMessage (msg : IncomingMessage) (err : JsErr) : OutgoingMessage :=
  { dataType := .text
    channelId := msg.channelId
    threadId := some msg.messageId
    data := .str (apologyText err) }

/-- The protected region of `processMessage` (the `try` body).  For a
synchronous hook the handler is awaited; a truthy result is passed to
`postMessage`, whose returned promise is **not awaited** in the source, so
its platform call is issued but a rejection of it does not propagate to the
surrounding `try`/`catch` (only its issued calls are kept here, its outcome
is dropped).  The success reaction is awaited.  For a non-synchronous hook
the handler is awaited and its result discarded. -/
def tryBody (plat : Platform) (r : Reactions) (hk : CommandHook)
    (msg : IncomingMessage) : List Call × Except JsErr Unit :=
  if hk.isSync then
    match hk.handler msg with
    | .error e => ([], .error e)
    | .ok content =>
      if r.success != "" then
        ((if content.truthy then (postMessage plat (successReply hk msg content)).1
          else []) ++ [Call.reactionsAdd msg.channelId r.success msg.messageId],
         plat (Call.reactionsAdd msg.channelId r.success msg.messageId))
      else
        ((if content.truthy then (postMessage plat (successReply hk msg content)).1
          else []),
         .ok ())
  else
    match hk.handler msg with
    | .error e => ([], .error e)
    | .ok _ => ([], .ok ())

/-- The catch block of `processMessage`: add the failure reaction when
configured (a rejection there skips the apology and propagates), then await
the apology `postMessage`. -/
def catchBody (plat : Platform) (r : Reactions) (msg : IncomingMessage)
    (e : JsErr) : List Call × Except JsErr Unit :=
  if r.failed != "" then
    match plat (Call.reactionsAdd msg.channelId r.failed msg.messageId) with
    | .error e2 => ([Call.reactionsAdd msg.channelId r.failed msg.messageId], .error e2)
    | .ok _ =>
      (Call.reactionsAdd msg.channelId r.failed msg.messageId ::
         (postMessage plat (apologyMessage msg e)).1,
       (postMessage plat (apologyMessage msg e)).2)
  else postMessage plat (apologyMessage msg e)

/-- The finally block of `processMessage`: remove the loading reaction when
configured; it runs regardless of the pending outcome, and a rejection of
the removal replaces the pending outcome. -/
def finallyBody (plat : Platform) (r : Reactions) (msg : IncomingMessage)
    (st : List Call × Except JsErr Unit) : List Call × Except JsErr Unit :=
  if r.loading != "" then
    match plat (Call.reactionsRemove msg.channelId r.loading msg.messageId) with
    | .error e2 =>
      (st.1 ++ [Call.reactionsRemove msg.channelId r.loading msg.messageId], .error e2)
    | .ok _ =>
      (st.1 ++ [Call.reactionsRemove msg.channelId r.loading msg.messageId], st.2)
  else st

/-- The `try`/`catch` composition of `processMessage`: run the protected
region, and on a rejection run the catch block on the thrown value. -/
def tryCatch (plat : Platform) (r : Reactions) (hk : CommandHook)
    (msg : IncomingMessage) : List Call × Except JsErr Unit :=
  match (tryBody plat r hk msg).2 with
  | .ok _ => tryBody plat r hk msg
  | .error e =>
    ((tryBody plat r hk msg).1 ++ (catchBody plat r msg e).1,
     (catchBody plat r msg e).2)

/-- `SlackQna.processMessage`: return immediately without a hook; add the
loading reaction when configured (a rejection there happens before the
`try`, so the finally block is not reached); run the protected region, on a
rejection run the catch block, and in every case that reached the `try` run
the finally block. -/
def processMessage (plat : Platform) (r : Reactions) (hook : Option CommandHook)
    (msg : IncomingMessage) : List Call × Except JsErr Unit :=
  match hook with
  | none => ([], Except.ok ())
  | some hk =>
    if r.loading != "" then
      match plat (Call.reactionsAdd msg.channelId r.loading msg.messageId) with
      | .error e =>
        ([Call.reactionsAdd msg.channelId r.loading msg.messageId], .error e)
      | .ok _ =>
        (Call.reactionsAdd msg.channelId r.loading msg.messageId ::
           (finallyBody plat r msg (tryCatch plat r hk msg)).1,
         (finallyBody plat r msg (tryCatch plat r hk msg)).2)
    else finallyBody plat r msg (tryCatch plat r hk msg)

/-- The channel/thread targets of the outbound sends (chat posts and file
uploads) in a call trace. -/
def sendTargets (t : List Call) : List (String × Option String) :=
  t.filterMap fun c =>
    match c with
    | .chatPostMessage ch th _ _ => some (ch, th)
    | .filesUploadV2 ch th _ _ => some (ch, th)
    | _ => none

/-- The texts of the plain-text chat posts (no layout blocks) in a call
trace. -/
def plainTexts (t : List Call) : List String :=
  t.filterMap fun c =>
    match c with
    | .chatPostMessage _ _ txt none => some txt
    | _ => none

/-- `leadsWith l p` holds when `p` is a prefix of `l`. -/
def leadsWith : List Char → List Char → Bool
  | _, [] => true
  | [], _ :: _ => false
  | c :: cs, p :: ps => (c = p) && leadsWith cs ps

/-- `hasSeq l pat` holds when `pat` occurs in `l` as a contiguous
subsequence. -/
def hasSeq : List Char → List Char → Bool
  | [], pat => pat.isEmpty
  | c :: cs, pat => leadsWith (c :: cs) pat || hasSeq cs pat

/-- Substring test on strings. -/
def strHas (s pat : String) : Bool :=
  hasSeq s.data pat.data

/-- Whether an outgoing message hits one of the `dataType`/payload pairs
recognized by `postMessage`. -/
def recognizedPair (m : OutgoingMessage) : Bool :=
  match m.dataType, m.data with
  | .text, .str _ => true
  | .mrkdwn, .str _ => true
  | .markdown, .str _ => true
  | .image, .buf _ => true
  | .file, .buf _ => true
  | _, _ => false

/-- A concrete incoming message sitting inside a thread (`threadId` differs
from its own `messageId`). -/
def msg0 : IncomingMessage :=
  { messageId := "M", channelId := "C", raw := "r", message := "m",
    threadId := some "T" }

/-- A synchronous text hook whose handler resolves with `"hi"`. -/
def hookHi : CommandHook :=
  { isSync := true, dataType := .text,
    handler := fun _ => .ok (.str "hi") }

/-- A synchronous text hook whose handler resolves with the empty string. -/
def hookEmpty : CommandHook :=
  { isSync := true, dataType := .text,
    handler := fun _ => .ok (.str "") }

/-- A synchronous text hook whose handler rejects with a non-`Error` value
carrying the message `"boom"`. -/
def hookNonError : CommandHook :=
  { isSync := true, dataType := .text,
    handler := fun _ => .error ⟨false, "boom"⟩ }

/-- A synchronous text hook whose handler rejects with an `Error` whose
message is `"boom"`. -/
def hookBoom : CommandHook :=
  { isSync := true, dataType := .text,
    handler := fun _ => .error ⟨true, "boom"⟩ }

/-- An oracle on which every `chat.postMessage` call rejects and every other
call succeeds. -/
def platFailChat : Platform := fun c =>
  match c with
  | .chatPostMessage _ _ _ _ => .error ⟨true, "send failed"⟩
  | _ => .ok ()

theorem sendTargets_nil : sendTargets [] = [] := rfl

theorem sendTargets_cons_add (ch n ts : String) (l : List Call) :
    sendTargets (Call.reactionsAdd ch n ts :: l) = sendTargets l := rfl

theorem sendTargets_cons_remove (ch n ts : String) (l : List Call) :
    sendTargets (Call.reactionsRemove ch n ts :: l) = sendTargets l := rfl

theorem sendTargets_cons_post (ch : String) (th : Option String) (t : String)
    (b : Option SlackBlock) (l : List Call) :
    sendTargets (Call.chatPostMessage ch th t b :: l) = (ch, th) :: sendTargets l := rfl

theorem sendTargets_cons_upload (ch : String) (th : Option String) (f : List Nat)
    (fn : String) (l : List Call) :
    sendTargets (Call.filesUploadV2 ch th f fn :: l) = (ch, th) :: sendTargets l := rfl

theorem sendTargets_append (a b : List Call) :
    sendTargets (a ++ b) = sendTargets a ++ sendTargets b :=
  List.filterMap_append a b _

theorem plainTexts_nil : plainTexts [] = [] := rfl

theorem plainTexts_cons_add (ch n ts : String) (l : List Call) :
    plainTexts (Call.reactionsAdd ch n ts :: l) = plainTexts l := rfl

theorem plainTexts_cons_remove (ch n ts : String) (l : List Call) :
    plainTexts (Call.reactionsRemove ch n ts :: l) = plainTexts l := rfl

theorem plainTexts_cons_plain (ch : String) (th : Option String) (t : String)
    (l : List Call) :
    plainTexts (Call.chatPostMessage ch th t none :: l) = t :: plainTexts l := rfl

theorem plainTexts_cons_block (ch : String) (th : Option String) (t : String)
    (b : SlackBlock) (l : List Call) :
    plainTexts (Call.chatPostMessage ch th t (some b) :: l) = plainTexts l := rfl

theorem plainTexts_cons_upload (ch : String) (th : Option String) (f : List Nat)
    (fn : String) (l : List Call) :
    plainTexts (Call.filesUploadV2 ch th f fn :: l) = plainTexts l := rfl

theorem plainTexts_append (a b : List Call) :
    plainTexts (a ++ b) = plainTexts a ++ plainTexts b :=
  List.filterMap_append a b _

/-- The apology dispatch is a single plain-text chat post to the incoming
channel, threaded under the incoming message id. -/
theorem postMessage_apology (plat : Platform) (msg : IncomingMessage) (e : JsErr) :
    postMessage plat (apologyMessage msg e) =
      ([Call.chatPostMessage msg.channelId (some msg.messageId) (apologyText e) none],
       plat (Call.chatPostMessage msg.channelId (some msg.messageId) (apologyText e) none)) :=
  rfl

/-- On the always-succeeding oracle the catch block adds the failure
reaction when configured and then posts the apology. -/
theorem catchBody_platOk (r : Reactions) (msg : IncomingMessage) (e : JsErr) :
    catchBody platOk r msg e =
      ((if (r.failed != "") = true
          then [Call.reactionsAdd msg.channelId r.failed msg.messageId] else []) ++
        [Call.chatPostMessage msg.channelId (some msg.messageId) (apologyText e) none],
       Except.ok ()) := by
  unfold catchBody
  by_cases hf : (r.failed != "") = true <;>
    simp [hf, postMessage_apology, platOk]

/-- A handler rejection makes the protected region fail with the thrown
value and issue no call. -/
theorem tryBody_fault (r : Reactions) (hk : CommandHook) (msg : IncomingMessage)
    (e : JsErr) (hfault : hk.handler msg = .error e) :
    tryBody platOk r hk msg = ([], Except.error e) := by
  unfold tryBody
  cases h : hk.isSync <;> simp [h, hfault]

/-- On a handler rejection the try/catch composition runs exactly the catch
block. -/
theorem tryCatch_fault (r : Reactions) (hk : CommandHook) (msg : IncomingMessage)
    (e : JsErr) (hfault : hk.handler msg = .error e) :
    tryCatch platOk r hk msg =
      ((if (r.failed != "") = true
          then [Call.reactionsAdd msg.channelId r.failed msg.messageId] else []) ++
        [Call.chatPostMessage msg.channelId (some msg.messageId) (apologyText e) none],
       Except.ok ()) := by
  unfold tryCatch
  simp [tryBody_fault r hk msg e hfault, catchBody_platOk]

/-- On the always-succeeding oracle `processMessage` with a hook is the
loading add (when configured), the try/catch calls, and the loading remove
(when configured), with the try/catch outcome. -/
theorem processMessage_platOk_shape (r : Reactions) (hk : CommandHook)
    (msg : IncomingMessage) :
    processMessage platOk r (some hk) msg =
      ((if (r.loading != "") = true
          then [Call.reactionsAdd msg.channelId r.loading msg.messageId] else []) ++
        (tryCatch platOk r hk msg).1 ++
        (if (r.loading != "") = true
          then [Call.reactionsRemove msg.channelId r.loading msg.messageId] else []),
       (tryCatch platOk r hk msg).2) := by
  unfold processMessage finallyBody
  by_cases hl : (r.loading != "") = true <;> simp [hl, platOk]

/-- On the always-succeeding oracle, a handler rejection produces the trace
loading add (when configured), failed add (when configured), apology post,
loading remove (when configured), and the call resolves. -/
theorem processMessage_fault_shape (r : Reactions) (hk : CommandHook)
    (msg : IncomingMessage) (e : JsErr) (hfault : hk.handler msg = .error e) :
    processMessage platOk r (some hk) msg =
      ((if (r.loading != "") = true
          then [Call.reactionsAdd msg.channelId r.loading msg.messageId] else []) ++
        ((if (r.failed != "") = true
            then [Call.reactionsAdd msg.channelId r.failed msg.messageId] else []) ++
          [Call.chatPostMessage msg.channelId (some msg.messageId) (apologyText e) none]) ++
        (if (r.loading != "") = true
          then [Call.reactionsRemove msg.channelId r.loading msg.messageId] else []),
       Except.ok ()) := by
  rw [processMessage_platOk_shape, tryCatch_fault r hk msg e hfault]

/-- Every target of a send issued by `postMessage` is the channel and thread
of the outgoing message. -/
theorem sendTargets_postMessage (plat : Platform) (m : OutgoingMessage) :
    ∀ p ∈ sendTargets (postMessage plat m).1, p = (m.channelId, m.threadId) := by
  intro p hp
  rcases m with ⟨ch, data, dt, th, bl⟩
  cases dt <;> cases data <;>
    simp_all [postMessage, sendTargets_cons_post, sendTargets_cons_upload,
      sendTargets_nil]

/-- Every target of a send issued by the protected region is the incoming
channel paired with the incoming message id. -/
theorem sendTargets_tryBody (plat : Platform) (r : Reactions) (hk : CommandHook)
    (msg : IncomingMessage) :
    ∀ p ∈ sendTargets (tryBody plat r hk msg).1,
      p = (msg.channelId, some msg.messageId) := by
  intro p hp
  unfold tryBody at hp
  by_cases hSync : hk.isSync = true
  · cases hh : hk.handler msg with
    | error e =>
      simp only [hSync, if_true, hh] at hp
      simp [sendTargets_nil] at hp
    | ok content =>
      simp only [hSync, if_true, hh] at hp
      have hpost : ∀ q ∈ sendTargets
          (if content.truthy = true
            then (postMessage plat (successReply hk msg content)).1 else []),
          q = (msg.channelId, some msg.messageId) := by
        intro q hq
        by_cases ht : content.truthy = true
        · rw [if_pos ht] at hq
          have := sendTargets_postMessage plat (successReply hk msg content) q hq
          simpa [successReply] using this
        · rw [if_neg ht] at hq
          simp [sendTargets_nil] at hq
      by_cases hs : (r.success != "") = true
      · simp only [hs, if_true, sendTargets_append] at hp
        rcases List.mem_append.mp hp with h | h
        · exact hpost p h
        · simp [sendTargets_cons_add, sendTargets_nil] at h
      · simp only [hs, if_false, Bool.false_eq_true, ite_false] at hp
        exact hpost p hp
  · simp only [Bool.not_eq_true] at hSync
    cases hh : hk.handler msg <;>
      simp only [hSync, Bool.false_eq_true, if_false, ite_false, hh] at hp <;>
      simp [sendTargets_nil] at hp

/-- Every target of a send issued by the catch block is the incoming channel
paired with the incoming message id. -/
theorem sendTargets_catchBody (plat : Platform) (r : Reactions)
    (msg : IncomingMessage) (e : JsErr) :
    ∀ p ∈ sendTargets (catchBody plat r msg e).1,
      p = (msg.channelId, some msg.messageId) := by
  intro p hp
  unfold catchBody at hp
  by_cases hf : (r.failed != "") = true
  · cases hc : plat (Call.reactionsAdd msg.channelId r.failed msg.messageId) with
    | error e2 =>
      simp only [hf, if_true, hc] at hp
      simp [sendTargets_cons_add, sendTargets_nil] at hp
    | ok u =>
      simp only [hf, if_true, hc, sendTargets_cons_add] at hp
      have := sendTargets_postMessage plat (apologyMessage msg e) p hp
      simpa [apologyMessage] using this
  · simp only [hf, Bool.false_eq_true, if_false, ite_false] at hp
    have := sendTargets_postMessage plat (apologyMessage msg e) p hp
    simpa [apologyMessage] using this

/-- Every target of a send issued by the try/catch composition is the
incoming channel paired with the incoming message id. -/
theorem sendTargets_tryCatch (r : Reactions) (hk : CommandHook)
    (msg : IncomingMessage) :
    ∀ p ∈ sendTargets (tryCatch platOk r hk msg).1,
      p = (msg.channelId, some msg.messageId) := by
  intro p hp
  unfold tryCatch at hp
  cases ht : (tryBody platOk r hk msg).2 with
  | ok u =>
    simp only [ht] at hp
    exact sendTargets_tryBody platOk r hk msg p hp
  | error e =>
    simp only [ht] at hp
    rw [sendTargets_append] at hp
    rcases List.mem_append.mp hp with h | h
    · exact sendTargets_tryBody platOk r hk msg p h
    · exact sendTargets_catchBody platOk r msg e p h

/-- Claim C1, counterexample: on the quoted input the converter does not
return the quoted expected output — the line-leading-whitespace pass
`replace(/^\s*/gm, '')` also consumes the line feed of the blank line after
the title (`\s` matches line feeds), so the expected blank line is gone. -/
theorem markdownToMrkdwn_sample_cex :
    markdownToMrkdwn
        "# Title\n\nSome **bold** and _italic_ and `code`.\n* item one\n1. item two\n[link](http://x)" ≠
      "*Title*\n\nSome *bold* and _italic_ and `code`.\n• item one\n• item two\n<http://x|link>" := by
  decide

/-- Claim C1, amended: on the quoted input the converter returns the quoted
output with a single line feed after the converted title (the blank line is
removed by the line-leading-whitespace pass), everything else as claimed. -/
theorem markdownToMrkdwn_sample :
    markdownToMrkdwn
        "# Title\n\nSome **bold** and _italic_ and `code`.\n* item one\n1. item two\n[link](http://x)" =
      "*Title*\nSome *bold* and _italic_ and `code`.\n• item one\n• item two\n<http://x|link>" := by
  decide

/-- Claim C9: the converter is idempotent on the already-converted output of
the header, bold, unordered-list and ordered-list rules, one witness input
per rule. -/
theorem markdownToMrkdwn_idempotent_samples :
    markdownToMrkdwn (markdownToMrkdwn "# Title") = markdownToMrkdwn "# Title" ∧
    markdownToMrkdwn (markdownToMrkdwn "**bold**") = markdownToMrkdwn "**bold**" ∧
    markdownToMrkdwn (markdownToMrkdwn "* item one") = markdownToMrkdwn "* item one" ∧
    markdownToMrkdwn (markdownToMrkdwn "1. item two") = markdownToMrkdwn "1. item two" := by
  decide

/-- Claim C10: for a `markdown` outgoing message with a string payload, the
single chat post carries the converted text inside the layout block and the
original untransformed string as the top-level fallback text field. -/
theorem postMessage_markdown_block (plat : Platform) (m : OutgoingMessage)
    (s : String) (hd : m.dataType = .markdown) (hs : m.data = .str s) :
    (postMessage plat m).1 =
      [Call.chatPostMessage m.channelId m.threadId s
        (some (mkBlock m.block (markdownToMrkdwn s)))] ∧
    (mkBlock m.block (markdownToMrkdwn s)).text = markdownToMrkdwn s := by
  constructor
  · unfold postMessage
    rw [hd, hs]
  · unfold mkBlock
    split <;> rfl

/-- Witness for C10 at a concrete markdown message. -/
theorem postMessage_markdown_block_witness :
    (OutgoingMessage.mk "C" (.str "# T") .markdown none none).dataType = .markdown ∧
    (OutgoingMessage.mk "C" (.str "# T") .markdown none none).data = .str "# T" ∧
    ((postMessage platOk (OutgoingMessage.mk "C" (.str "# T") .markdown none none)).1 =
      [Call.chatPostMessage "C" none "# T"
        (some (mkBlock none (markdownToMrkdwn "# T")))] ∧
      (mkBlock none (markdownToMrkdwn "# T")).text = markdownToMrkdwn "# T") :=
  ⟨rfl, rfl,
    postMessage_markdown_block platOk (OutgoingMessage.mk "C" (.str "# T") .markdown none none)
      "# T" rfl rfl⟩

/-- Claim C4: an outgoing message whose `dataType`/payload pair is not one of
the recognized combinations makes zero platform calls and returns without
an error. -/
theorem postMessage_unrecognized_noop (plat : Platform) (m : OutgoingMessage)
    (h : recognizedPair m = false) :
    postMessage plat m = ([], Except.ok ()) := by
  rcases m with ⟨ch, data, dt, th, bl⟩
  cases dt <;> cases data <;> simp_all [postMessage, recognizedPair]

/-- Witness for C4 at a concrete mismatched message (`image` with a string
payload). -/
theorem postMessage_unrecognized_noop_witness :
    recognizedPair (OutgoingMessage.mk "C" (.str "hi") .image none none) = false ∧
    postMessage platOk (OutgoingMessage.mk "C" (.str "hi") .image none none) =
      ([], Except.ok ()) :=
  ⟨rfl, postMessage_unrecognized_noop platOk
    (OutgoingMessage.mk "C" (.str "hi") .image none none) rfl⟩

/-- Claim C2, counterexample: the handler rejects with a non-`Error` value
whose `message` property is `"boom"`, yet the single apology reply has an
empty parenthetical — the source interpolates the message only for `Error`
instances (`err instanceof Error && err.message`), so the message is not
interpolated "regardless of the fault's kind". -/
theorem apology_nonError_cex :
    hookNonError.handler msg0 = .error ⟨false, "boom"⟩ ∧
    plainTexts (processMessage platOk (mkReactions none) (some hookNonError) msg0).1 =
      ["Sorry, something went wrong. ()"] ∧
    ("Sorry, something went wrong. ()" : String) ≠
      "Sorry, something went wrong. (boom)" := by
  refine ⟨rfl, ?_, by decide⟩
  decide

/-- Claim C2, amended: for every fault raised by the registered handler,
`processMessage` sends exactly one plain-text chat reply equal to
`"Sorry, something went wrong. (<m>)"`, where `<m>` is the fault's message
when the fault is an `Error` instance with a nonempty message and empty
otherwise (a non-`Error` fault's message is never interpolated). -/
theorem apology_text_shape (r : Reactions) (hk : CommandHook)
    (msg : IncomingMessage) (e : JsErr) (hfault : hk.handler msg = .error e) :
    plainTexts (processMessage platOk r (some hk) msg).1 = [apologyText e] := by
  rw [processMessage_fault_shape r hk msg e hfault]
  by_cases hl : (r.loading != "") = true <;> by_cases hf : (r.failed != "") = true <;>
    simp [hl, hf, plainTexts_append, plainTexts_cons_add, plainTexts_cons_remove,
      plainTexts_cons_plain, plainTexts_nil]

/-- Witness for the amended C2 at a concrete `Error` fault. -/
theorem apology_text_shape_witness :
    hookBoom.handler msg0 = .error ⟨true, "boom"⟩ ∧
    plainTexts (processMessage platOk (mkReactions none) (some hookBoom) msg0).1 =
      ["Sorry, something went wrong. (boom)"] :=
  ⟨rfl, (apology_text_shape (mkReactions none) hookBoom msg0 ⟨true, "boom"⟩ rfl).trans
    (by decide)⟩

/-- Claim C3: with all three reactions configured and the handler rejecting
with an `Error` carrying message `"boom"`, the call trace is exactly
loading-add, failed-add, one outbound text send whose text contains
`"(boom)"`, then loading-remove, in that order. -/
theorem processMessage_fault_order (r : Reactions) (hk : CommandHook)
    (msg : IncomingMessage) (hl : r.loading ≠ "") (_hs : r.success ≠ "")
    (hf : r.failed ≠ "")
    (hfault : hk.handler msg = .error ⟨true, "boom"⟩) :
    (processMessage platOk r (some hk) msg).1 =
      [Call.reactionsAdd msg.channelId r.loading msg.messageId,
       Call.reactionsAdd msg.channelId r.failed msg.messageId,
       Call.chatPostMessage msg.channelId (some msg.messageId)
         "Sorry, something went wrong. (boom)" none,
       Call.reactionsRemove msg.channelId r.loading msg.messageId] ∧
    strHas "Sorry, something went wrong. (boom)" "(boom)" = true := by
  have happ : apologyText ⟨true, "boom"⟩ = "Sorry, something went wrong. (boom)" := by
    decide
  have hl' : (r.loading != "") = true := by simpa using hl
  have hf' : (r.failed != "") = true := by simpa using hf
  refine ⟨?_, by decide⟩
  have h := processMessage_fault_shape r hk msg ⟨true, "boom"⟩ hfault
  rw [happ] at h
  rw [show (processMessage platOk r (some hk) msg).1 = _ from congrArg Prod.fst h]
  simp [hl', hf']

/-- Witness for C3 at the default reactions and a concrete rejecting hook. -/
theorem processMessage_fault_order_witness :
    (mkReactions none).loading ≠ "" ∧ (mkReactions none).success ≠ "" ∧
    (mkReactions none).failed ≠ "" ∧
    hookBoom.handler msg0 = .error ⟨true, "boom"⟩ ∧
    ((processMessage platOk (mkReactions none) (some hookBoom) msg0).1 =
      [Call.reactionsAdd msg0.channelId (mkReactions none).loading msg0.messageId,
       Call.reactionsAdd msg0.channelId (mkReactions none).failed msg0.messageId,
       Call.chatPostMessage msg0.channelId (some msg0.messageId)
         "Sorry, something went wrong. (boom)" none,
       Call.reactionsRemove msg0.channelId (mkReactions none).loading msg0.messageId] ∧
     strHas "Sorry, something went wrong. (boom)" "(boom)" = true) :=
  ⟨by decide, by decide, by decide, rfl,
    processMessage_fault_order (mkReactions none) hookBoom msg0
      (by decide) (by decide) (by decide) rfl⟩

/-- Claim C8: with the loading and success reactions configured, a
synchronous hook whose handler resolves with the empty string yields
exactly the loading-add, success-add and loading-remove reaction calls and
zero outbound sends. -/
theorem processMessage_empty_content (r : Reactions) (hk : CommandHook)
    (msg : IncomingMessage) (hsync : hk.isSync = true)
    (hempty : hk.handler msg = .ok (.str ""))
    (hl : r.loading ≠ "") (hs : r.success ≠ "") :
    (processMessage platOk r (some hk) msg).1 =
      [Call.reactionsAdd msg.channelId r.loading msg.messageId,
       Call.reactionsAdd msg.channelId r.success msg.messageId,
       Call.reactionsRemove msg.channelId r.loading msg.messageId] ∧
    sendTargets (processMessage platOk r (some hk) msg).1 = [] := by
  have hl' : (r.loading != "") = true := by simpa using hl
  have hs' : (r.success != "") = true := by simpa using hs
  have htry : tryBody platOk r hk msg =
      ([Call.reactionsAdd msg.channelId r.success msg.messageId], Except.ok ()) := by
    unfold tryBody
    simp [hsync, hempty, Payload.truthy, hs', platOk]
  have htc : tryCatch platOk r hk msg =
      ([Call.reactionsAdd msg.channelId r.success msg.messageId], Except.ok ()) := by
    unfold tryCatch
    rw [htry]
  have h1 : (processMessage platOk r (some hk) msg).1 =
      [Call.reactionsAdd msg.channelId r.loading msg.messageId,
       Call.reactionsAdd msg.channelId r.success msg.messageId,
       Call.reactionsRemove msg.channelId r.loading msg.messageId] := by
    have h := processMessage_platOk_shape r hk msg
    rw [htc] at h
    rw [show (processMessage platOk r (some hk) msg).1 = _ from congrArg Prod.fst h]
    simp [hl']
  refine ⟨h1, ?_⟩
  rw [h1]
  simp [sendTargets_cons_add, sendTargets_cons_remove, sendTargets_nil]

/-- Witness for C8 at the default reactions and a concrete empty-content
hook. -/
theorem processMessage_empty_content_witness :
    hookEmpty.isSync = true ∧ hookEmpty.handler msg0 = .ok (.str "") ∧
    (mkReactions none).loading ≠ "" ∧ (mkReactions none).success ≠ "" ∧
    ((processMessage platOk (mkReactions none) (some hookEmpty) msg0).1 =
      [Call.reactionsAdd msg0.channelId (mkReactions none).loading msg0.messageId,
       Call.reactionsAdd msg0.channelId (mkReactions none).success msg0.messageId,
       Call.reactionsRemove msg0.channelId (mkReactions none).loading msg0.messageId] ∧
     sendTargets (processMessage platOk (mkReactions none) (some hookEmpty) msg0).1 = []) :=
  ⟨rfl, rfl, by decide, by decide,
    processMessage_empty_content (mkReactions none) hookEmpty msg0 rfl rfl
      (by decide) (by decide)⟩

/-- Claim C6, counterexample: constructing with the reactions override
absent (loading unset) and processing a message still issues the
loading-reaction add and remove — the constructor defaults the loading
emoji to `thinking_face` via `||`, so absence does not disable the step. -/
theorem loading_unset_cex :
    (processMessage platOk (mkReactions none) (some hookEmpty) msg0).1 =
      [Call.reactionsAdd "C" "thinking_face" "M",
       Call.reactionsAdd "C" "white_check_mark" "M",
       Call.reactionsRemove "C" "thinking_face" "M"] := by
  decide

/-- Claim C6, amended: leaving the loading emoji unset at construction does
not disable the loading steps — the constructor defaults it to
`thinking_face`, and `processMessage` with a registered hook then performs
both the loading-reaction add and the loading-reaction remove. -/
theorem processMessage_loading_defaulted (arg : Option ReactionsArg)
    (hk : CommandHook) (msg : IncomingMessage)
    (hunset : arg.bind (·.loading) = none) :
    (mkReactions arg).loading = "thinking_face" ∧
    Call.reactionsAdd msg.channelId "thinking_face" msg.messageId ∈
      (processMessage platOk (mkReactions arg) (some hk) msg).1 ∧
    Call.reactionsRemove msg.channelId "thinking_face" msg.messageId ∈
      (processMessage platOk (mkReactions arg) (some hk) msg).1 := by
  have hload : (mkReactions arg).loading = "thinking_face" := by
    simp [mkReactions, hunset, jsOr]
  have h := processMessage_platOk_shape (mkReactions arg) hk msg
  rw [hload] at h
  have h1 := congrArg Prod.fst h
  simp only at h1
  have htf : ("thinking_face" != "") = true := by decide
  rw [htf] at h1
  refine ⟨hload, ?_, ?_⟩ <;> rw [h1] <;>
    simp [List.mem_append]

/-- Witness for the amended C6 at a concrete absent override. -/
theorem processMessage_loading_defaulted_witness :
    ((none : Option ReactionsArg).bind (·.loading) = none) ∧
    ((mkReactions none).loading = "thinking_face" ∧
     Call.reactionsAdd msg0.channelId "thinking_face" msg0.messageId ∈
       (processMessage platOk (mkReactions none) (some hookEmpty) msg0).1 ∧
     Call.reactionsRemove msg0.channelId "thinking_face" msg0.messageId ∈
       (processMessage platOk (mkReactions none) (some hookEmpty) msg0).1) :=
  ⟨rfl, processMessage_loading_defaulted none hookEmpty msg0 rfl⟩

/-- Claim C5, counterexample: for an incoming message that belongs to thread
`"T"` (its own id being `"M"`), the reply is threaded under `"M"`, not under
the thread the incoming message belongs to — `processMessage` sets the
outgoing `threadId` to `incomingMessage.messageId`, not to
`incomingMessage.threadId`. -/
theorem reply_thread_cex :
    sendTargets (processMessage platOk (mkReactions none) (some hookHi) msg0).1 =
      [("C", some "M")] ∧
    msg0.threadId = some "T" ∧
    (some "M" : Option String) ≠ some "T" := by
  refine ⟨?_, rfl, by decide⟩
  decide

/-- Claim C5, amended: every reply that `processMessage` posts — the
synchronous hook's success reply and the fault apology — targets the
incoming message's `channelId` and is threaded under the incoming message
itself (`threadId` equal to the incoming `messageId`, which coincides with
the incoming thread only when the message is its thread root). -/
theorem reply_targets_messageId (r : Reactions) (hk : CommandHook)
    (msg : IncomingMessage) (p : String × Option String)
    (hp : p ∈ sendTargets (processMessage platOk r (some hk) msg).1) :
    p = (msg.channelId, some msg.messageId) := by
  have h := processMessage_platOk_shape r hk msg
  rw [show (processMessage platOk r (some hk) msg).1 = _ from congrArg Prod.fst h,
    sendTargets_append, sendTargets_append] at hp
  have hopt : ∀ (c : Call) (n : String) (ts : String), True := fun _ _ _ => trivial
  rcases List.mem_append.mp hp with hp1 | hp2
  · rcases List.mem_append.mp hp1 with hp3 | hp4
    · by_cases hl : (r.loading != "") = true
      · simp [hl, sendTargets_cons_add, sendTargets_nil] at hp3
      · simp [hl, sendTargets_nil] at hp3
    · exact sendTargets_tryCatch r hk msg p hp4
  · by_cases hl : (r.loading != "") = true
    · simp [hl, sendTargets_cons_remove, sendTargets_nil] at hp2
    · simp [hl, sendTargets_nil] at hp2

/-- Witness for the amended C5 at a concrete success reply. -/
theorem reply_targets_messageId_witness :
    ("C", some "M") ∈
      sendTargets (processMessage platOk (mkReactions none) (some hookHi) msg0).1 ∧
    (("C", some "M") : String × Option String) = (msg0.channelId, some msg0.messageId) :=
  ⟨by decide,
    reply_targets_messageId (mkReactions none) hookHi msg0 ("C", some "M") (by decide)⟩

/-- Claim C7: the source does not await the success-reply dispatch
(`this.postMessage(...)` without `await`), so when the success-reply chat
post rejects the catch path is not taken: the trace shows the rejected send
followed by the success reaction and the loading removal, with no failed
reaction and no apology, and `processMessage` resolves — a dispatch fault
of the success reply does not propagate like a handler fault. -/
theorem successReply_fault_uncaught :
    processMessage platFailChat (mkReactions none) (some hookHi) msg0 =
      ([Call.reactionsAdd "C" "thinking_face" "M",
        Call.chatPostMessage "C" (some "M") "hi" none,
        Call.reactionsAdd "C" "white_check_mark" "M",
        Call.reactionsRemove "C" "thinking_face" "M"], Except.ok ()) ∧
    platFailChat (Call.chatPostMessage "C" (some "M") "hi" none) =
      .error ⟨true, "send failed"⟩ := by
  refine ⟨?_, rfl⟩
  decide

end SlackQna
